import Mathlib

/-!
Verification of the metrics-computation core of the `lvt_calculator`
repository (LTV / CAC / churn / scenario dashboards).

The repository contains three near-duplicate calculator scripts:
`app.py`, `calculator.py` and `LTV_Calculator_Project/calculator.py`.
All numeric state is scalar; every computation is closed-form rational
arithmetic, so the shallow embedding uses `ℚ` for Python floats and `ℕ`
for the integer-valued widgets (which all have `min_value = 0`).

Python's `/` raises `ZeroDivisionError` when the denominator is zero;
wherever the source performs an unguarded division we embed the result
as `Option ℚ`, with `none` for the raised exception.  Metric values that
the source renders either as a number or as a textual sentinel
("∞", "N/A") are embedded as the `Display` sum type.
-/

namespace LtvCalc

/-- A metric value as rendered by the dashboards: either a number or a
textual sentinel such as "∞" or "N/A". -/
inductive Display where
  | num (q : ℚ)
  | text (s : String)
deriving DecidableEq, Repr

/-! ## Lifespan from churn (C1)

`calculator.py` line 77 (tab 1, churn-based lifespan):
`customer_lifespan = 1 / (monthly_churn * 12)` — an unguarded division.
`calculator.py` line 225 (tab 3 metric):
`f"...{1/(churn_rate*12):.1f} years" if churn_rate > 0 else "∞"`. -/

/-- `calculator.py` line 77: `customer_lifespan = 1 / (monthly_churn * 12)`.
The division is unguarded in the source; `none` models the
`ZeroDivisionError` Python raises when `monthly_churn = 0`. -/
def customer_lifespan_churn (monthly_churn : ℚ) : Option ℚ :=
  if monthly_churn * 12 = 0 then none else some (1 / (monthly_churn * 12))

/-- `calculator.py` line 225 (tab 3): the Average Customer Lifespan metric,
guarded with the "∞" sentinel when the churn rate is zero. -/
def avg_lifespan_metric (churn_rate : ℚ) : Display :=
  if churn_rate > 0 then Display.num (1 / (churn_rate * 12)) else Display.text "∞"

/-! ## LTV / CAC ratio (C2)

`app.py` line 109: `ltv_cac_ratio = ltv / cac if cac > 0 else 0`.
`LTV_Calculator_Project/calculator.py` lines 119–123: the ratio metric is
rendered only under `if ltv > 0:`, and displays `ltv/cac` when `cac > 0`
and the string "∞" otherwise. -/

/-- `app.py` line 109: `ltv_cac_ratio = ltv / cac if cac > 0 else 0`. -/
def ltv_cac_ratio_app (ltv cac : ℚ) : ℚ :=
  if cac > 0 then ltv / cac else 0

/-- `LTV_Calculator_Project/calculator.py` lines 119–120: the LTV/CAC Ratio
metric, rendered only when `ltv > 0` (else `none`); inside, `ltv/cac` when
`cac > 0`, the "∞" sentinel otherwise. -/
def ltv_cac_ratio_proj (ltv cac : ℚ) : Option Display :=
  if ltv > 0 then
    some (if cac > 0 then Display.num (ltv / cac) else Display.text "∞")
  else none

/-! ## Ratio classification (C3)

`app.py` lines 32–65 (`get_recommendations`): three status tiers.
`calculator.py` lines 386–417 (footer): four tiers with boundaries
1, 3 and 5. -/

/-- `app.py` lines 32–65: the `status` string returned by
`get_recommendations` — `< 1`, `1 <= ratio <= 3`, else. -/
def get_recommendations_status (r : ℚ) : String :=
  if r < 1 then "Critical - Immediate Action Required"
  else if 1 ≤ r ∧ r ≤ 3 then "Healthy - Room for Improvement"
  else "Excellent - Growth Opportunity"

/-- The four classification tiers of the footer in `calculator.py`. -/
inductive Tier where
  | Critical
  | NeedsWork
  | Healthy
  | Excellent
deriving DecidableEq, Repr

/-- `calculator.py` lines 386–417: the footer classification of the
LTV/CAC ratio — `< 1` Critical, `< 3` Below Target, `< 5` Good,
else Excellent. -/
def footer_classify (r : ℚ) : Tier :=
  if r < 1 then Tier.Critical
  else if r < 3 then Tier.NeedsWork
  else if r < 5 then Tier.Healthy
  else Tier.Excellent

/-! ## Churn rate (C4)

`calculator.py` lines 197–220 (tab 3): both churn methods.  The widgets
are integer inputs with `min_value = 0`, hence `ℕ` arguments. -/

/-- The two churn calculation methods offered by the tab-3 radio widget. -/
inductive ChurnMethod where
  | lostCustomers
  | startEndComparison
deriving DecidableEq, Repr

/-- `calculator.py` lines 208 and 220: `lost/start if start > 0 else 0`
for the Lost Customers method, `(start-end)/start if start > 0 else 0`
for Start/End Comparison.  `lostOrEnd` is `lost_customers` for the first
method and `end_customers` for the second. -/
def churn_rate (method : ChurnMethod) (start lostOrEnd : ℕ) : ℚ :=
  match method with
  | ChurnMethod.lostCustomers =>
      if start > 0 then (lostOrEnd : ℚ) / start else 0
  | ChurnMethod.startEndComparison =>
      if start > 0 then ((start : ℚ) - lostOrEnd) / start else 0

/-! ## Payback period (C5) -/

/-- `calculator.py` line 131:
`payback_period = cac / monthly_revenue if monthly_revenue > 0 else 0`. -/
def payback_period_tab2 (cac monthly_revenue : ℚ) : ℚ :=
  if monthly_revenue > 0 then cac / monthly_revenue else 0

/-- `app.py` line 110:
`payback_period = cac / (arpu * gross_margin) if arpu * gross_margin > 0 else 0`. -/
def payback_period_app (cac arpu gross_margin : ℚ) : ℚ :=
  if arpu * gross_margin > 0 then cac / (arpu * gross_margin) else 0

/-- `LTV_Calculator_Project/calculator.py` lines 121–123: the CAC Payback
Period metric displays `cac/(avg_purchase * purchase_freq/12)` months when
`avg_purchase * purchase_freq > 0` and the string "N/A" otherwise. -/
def payback_display_proj (cac avg_purchase purchase_freq : ℚ) : Display :=
  if avg_purchase * purchase_freq > 0 then
    Display.num (cac / (avg_purchase * purchase_freq / 12))
  else Display.text "N/A"

/-! ## CAC and LTV (C6) -/

/-- `calculator.py` line 128:
`cac = marketing_spend / new_customers if new_customers > 0 else 0`.
`new_customers` is an integer widget with `min_value = 0`. -/
def cac_calc (marketing_spend : ℚ) (new_customers : ℕ) : ℚ :=
  if new_customers > 0 then marketing_spend / new_customers else 0

/-- `calculator.py` line 86: `ltv = avg_purchase * purchase_freq * customer_lifespan`. -/
def ltv_calc (avg_purchase purchase_freq customer_lifespan : ℚ) : ℚ :=
  avg_purchase * purchase_freq * customer_lifespan

/-! ## ARPU-based LTV (C7) -/

/-- `app.py` lines 26–30: `calculate_ltv` returns 0 when `churn_rate == 0`
and `arpu * (1/churn_rate) * gross_margin` otherwise. -/
def calculate_ltv (arpu churn_rate gross_margin : ℚ) : ℚ :=
  if churn_rate = 0 then 0 else arpu * (1 / churn_rate) * gross_margin

/-! ## Scenario planning (C8, C10) -/

/-- The session-scoped baseline scalars `base_ltv` and `base_cac`. -/
structure Baseline where
  ltv : ℚ
  cac : ℚ
deriving DecidableEq, Repr

/-- The tab-5 percentage sliders: change in average purchase value
(applied to LTV) and change in CAC. -/
structure ScenarioDeltas where
  ltvPct : ℚ
  cacPct : ℚ
deriving DecidableEq, Repr

/-- `calculator.py` lines 330–331:
`new_ltv = base_ltv * (1 + purchase_value_change/100)` and
`new_cac = base_cac * (1 + cac_reduction/100)`. -/
def applyScenario (b : Baseline) (d : ScenarioDeltas) : Baseline :=
  { ltv := b.ltv * (1 + d.ltvPct / 100)
    cac := b.cac * (1 + d.cacPct / 100) }

/-! ## Annualized churn and the whole engine (C9) -/

/-- `calculator.py` line 224: annual churn `1 - (1 - churn_rate)^12`. -/
def annualize_churn (monthly_rate : ℚ) : ℚ :=
  1 - (1 - monthly_rate) ^ 12

/-- All scalar inputs consumed by the engine functions named in the spec. -/
structure EngineInputs where
  avg_purchase : ℚ
  purchase_freq : ℚ
  customer_lifespan : ℚ
  marketing_spend : ℚ
  new_customers : ℕ
  ratio_ltv : ℚ
  ratio_cac : ℚ
  churn_method : ChurnMethod
  start_customers : ℕ
  lost_or_end : ℕ
  monthly_rate : ℚ
  arpu : ℚ
  arpu_churn : ℚ
  gross_margin : ℚ
deriving DecidableEq

/-- The record of results produced by one pass of the engine. -/
structure EngineOutputs where
  out_ltv : ℚ
  out_cac : ℚ
  out_ltv_cac : ℚ
  out_churn : ℚ
  out_annual_churn : ℚ
  out_arpu_ltv : ℚ
  out_tier : Tier
deriving DecidableEq

/-- One evaluation of every engine function on a given input record:
the composite of `ltv_calc`, `cac_calc`, `ltv_cac_ratio_app`,
`churn_rate`, `annualize_churn`, `calculate_ltv` and `footer_classify`. -/
def engine_run (i : EngineInputs) : EngineOutputs :=
  { out_ltv := ltv_calc i.avg_purchase i.purchase_freq i.customer_lifespan
    out_cac := cac_calc i.marketing_spend i.new_customers
    out_ltv_cac := ltv_cac_ratio_app i.ratio_ltv i.ratio_cac
    out_churn := churn_rate i.churn_method i.start_customers i.lost_or_end
    out_annual_churn := annualize_churn i.monthly_rate
    out_arpu_ltv := calculate_ltv i.arpu i.arpu_churn i.gross_margin
    out_tier := footer_classify (ltv_cac_ratio_app i.ratio_ltv i.ratio_cac) }

/-! ## Theorems -/

/-- Claim C1: the spec says churn-to-lifespan conversion returns the ∞
sentinel at zero churn without raising.  The tab-3 metric is guarded and
shows "∞", but the tab-1 conversion at `calculator.py` line 77 divides
unguarded and raises `ZeroDivisionError` (modelled as `none`) when the
monthly churn rate is 0; for positive rates it returns
`1 / (rate × 12)`, e.g. `5/3` years at a 5% monthly rate. -/
theorem C1_lifespan_zero_churn :
    customer_lifespan_churn 0 = none ∧
    avg_lifespan_metric 0 = Display.text "∞" ∧
    customer_lifespan_churn (5 / 100) = some (5 / 3) := by
  refine ⟨by norm_num [customer_lifespan_churn], by norm_num [avg_lifespan_metric], ?_⟩
  norm_num [customer_lifespan_churn]

/-- Claim C2 counterexample: the claim says computeRatio returns the
sentinel "∞" when cac = 0 and ltv > 0, but `app.py` line 109 returns the
number 0 at ltv = 300, cac = 0 — the same value as at ltv = 0, cac = 0,
so the "∞" case does not exist there. -/
theorem C2_counterexample :
    ltv_cac_ratio_app 300 0 = 0 ∧ ltv_cac_ratio_app 0 0 = 0 := by
  constructor <;> norm_num [ltv_cac_ratio_app]

/-- Claim C2 (amended): for ltv ≥ 0 and cac ≥ 0, the `app.py` ratio
returns ltv/cac when cac > 0 and 0 whenever cac = 0 (even for ltv > 0);
the project-calculator metric, rendered only when ltv > 0, shows ltv/cac
when cac > 0 and the "∞" sentinel when cac = 0, and is absent when
ltv = 0. -/
theorem C2_ratio_characterization (ltv cac : ℚ) (hl : 0 ≤ ltv) (hc : 0 ≤ cac) :
    (0 < cac → ltv_cac_ratio_app ltv cac = ltv / cac) ∧
    (cac = 0 → ltv_cac_ratio_app ltv cac = 0) ∧
    (0 < ltv → 0 < cac → ltv_cac_ratio_proj ltv cac = some (Display.num (ltv / cac))) ∧
    (0 < ltv → cac = 0 → ltv_cac_ratio_proj ltv cac = some (Display.text "∞")) ∧
    (ltv = 0 → ltv_cac_ratio_proj ltv cac = none) := by
  refine ⟨?_, ?_, ?_, ?_, ?_⟩
  · intro h; simp [ltv_cac_ratio_app, h]
  · intro h; simp [ltv_cac_ratio_app, h]
  · intro h1 h2; simp [ltv_cac_ratio_proj, h1, h2]
  · intro h1 h2; simp [ltv_cac_ratio_proj, h1, h2]
  · intro h; simp [ltv_cac_ratio_proj, h]

/-- Claim C2 witness: the characterization at ltv = 300, cac = 20 gives
the ratio 15. -/
theorem C2_ratio_characterization_witness :
    (0:ℚ) ≤ 300 ∧ (0:ℚ) ≤ 20 ∧ ltv_cac_ratio_app 300 20 = 15 := by
  refine ⟨by norm_num, by norm_num, ?_⟩
  have h := (C2_ratio_characterization 300 20 (by norm_num) (by norm_num)).1 (by norm_num)
  rw [h]; norm_num

/-- Claim C3 counterexample: the claim says the classifier has four
tiers with classifyRatio(4) = Healthy ≠ Excellent = classifyRatio(6),
but `get_recommendations` in `app.py` returns the identical top status
for ratios 4 and 6 (it has only three tiers), while the footer
classifier in `calculator.py` does place 4 in the Healthy tier. -/
theorem C3_counterexample :
    get_recommendations_status 4 = "Excellent - Growth Opportunity" ∧
    get_recommendations_status 4 = get_recommendations_status 6 ∧
    footer_classify 4 = Tier.Healthy ∧ footer_classify 6 = Tier.Excellent := by
  refine ⟨?_, ?_, ?_, ?_⟩ <;> norm_num [get_recommendations_status, footer_classify]

/-- Claim C3 (amended): the footer classification in `calculator.py`
implements exactly the four tiers with the stated fixed boundaries —
Critical below 1, NeedsWork on [1,3), Healthy on [3,5), Excellent from 5
— and in particular sends 0.5, 2, 4 and 6 to the four tiers in order;
`get_recommendations` in `app.py` is a coarser three-tier classifier. -/
theorem C3_four_tiers (r : ℚ) :
    (r < 1 → footer_classify r = Tier.Critical) ∧
    (1 ≤ r → r < 3 → footer_classify r = Tier.NeedsWork) ∧
    (3 ≤ r → r < 5 → footer_classify r = Tier.Healthy) ∧
    (5 ≤ r → footer_classify r = Tier.Excellent) ∧
    footer_classify (1 / 2) = Tier.Critical ∧ footer_classify 2 = Tier.NeedsWork ∧
    footer_classify 4 = Tier.Healthy ∧ footer_classify 6 = Tier.Excellent := by
  refine ⟨?_, ?_, ?_, ?_, ?_, ?_, ?_, ?_⟩
  · intro h; simp only [footer_classify]; rw [if_pos h]
  · intro h1 h2; simp only [footer_classify]; rw [if_neg (by linarith), if_pos h2]
  · intro h1 h2
    simp only [footer_classify]; rw [if_neg (by linarith), if_neg (by linarith), if_pos h2]
  · intro h
    simp only [footer_classify]
    rw [if_neg (by linarith), if_neg (by linarith), if_neg (by linarith)]
  all_goals norm_num [footer_classify]

/-- Claim C3 witness: the tier characterization applied at ratio 4. -/
theorem C3_four_tiers_witness :
    (3:ℚ) ≤ 4 ∧ (4:ℚ) < 5 ∧ footer_classify 4 = Tier.Healthy := by
  refine ⟨by norm_num, by norm_num, ?_⟩
  exact (C3_four_tiers 4).2.2.1 (by norm_num) (by norm_num)

/-- Claim C4 counterexample: the claim says the returned churn rate
always lies in [0,1], but the widgets do not force lost ≤ start or
end ≤ start: with start = 10 and lost = 50 the Lost Customers method
returns 5, and with start = 100 and end = 150 the Start/End method
returns −1/2. -/
theorem C4_counterexample :
    churn_rate ChurnMethod.lostCustomers 10 50 = 5 ∧
    ¬ churn_rate ChurnMethod.lostCustomers 10 50 ≤ 1 ∧
    churn_rate ChurnMethod.startEndComparison 100 150 = -(1 / 2) := by
  refine ⟨?_, ?_, ?_⟩ <;> norm_num [churn_rate]

/-- Claim C4 (amended): the formulas hold as stated — lost/start for the
Lost Customers method, (start − end)/start for Start/End, and the 0
sentinel when start = 0 — and the churn rate lies in [0,1] provided the
second argument does not exceed start (lost ≤ start, resp. end ≤ start);
without that side condition it can leave [0,1]. -/
theorem C4_churn_characterization (method : ChurnMethod) (start x : ℕ) :
    (start = 0 → churn_rate method start x = 0) ∧
    (0 < start → churn_rate ChurnMethod.lostCustomers start x = (x : ℚ) / start) ∧
    (0 < start → churn_rate ChurnMethod.startEndComparison start x
      = ((start : ℚ) - x) / start) ∧
    (x ≤ start → 0 ≤ churn_rate method start x ∧ churn_rate method start x ≤ 1) := by
  refine ⟨?_, ?_, ?_, ?_⟩
  · intro h; cases method <;> simp [churn_rate, h]
  · intro h; simp [churn_rate, h]
  · intro h; simp [churn_rate, h]
  · intro hx
    rcases Nat.eq_zero_or_pos start with h0 | hpos
    · cases method <;> simp [churn_rate, h0]
    · have hs : (0:ℚ) < start := by exact_mod_cast hpos
      have hxq : (x : ℚ) ≤ start := by exact_mod_cast hx
      have hx0 : (0:ℚ) ≤ x := by positivity
      cases method
      · simp only [churn_rate, if_pos hpos]
        exact ⟨div_nonneg hx0 (le_of_lt hs), by rw [div_le_one hs]; exact hxq⟩
      · simp only [churn_rate, if_pos hpos]
        constructor
        · exact div_nonneg (by linarith) (le_of_lt hs)
        · rw [div_le_one hs]; linarith

/-- Claim C4 witness: the characterization at start = 1000, lost = 50
gives a churn rate inside [0,1]. -/
theorem C4_churn_characterization_witness :
    (50:ℕ) ≤ 1000 ∧ 0 ≤ churn_rate ChurnMethod.lostCustomers 1000 50 ∧
      churn_rate ChurnMethod.lostCustomers 1000 50 ≤ 1 :=
  ⟨by norm_num,
   (C4_churn_characterization ChurnMethod.lostCustomers 1000 50).2.2.2 (by norm_num)⟩

/-- Claim C5 counterexample: the claim says computePaybackMonths returns
the sentinel "N/A" when the denominator is 0, but `calculator.py` line
131 and `app.py` line 110 both return the number 0 there. -/
theorem C5_counterexample :
    payback_period_tab2 5 0 = 0 ∧ payback_period_app 5 0 (7 / 10) = 0 := by
  constructor <;> norm_num [payback_period_tab2, payback_period_app]

/-- Claim C5 (amended): all three payback variants return
cac / monthlyRevenue when the revenue term is positive; when it is 0,
only the project-calculator display uses the "N/A" sentinel, while the
`calculator.py` tab-2 value and the `app.py` value use the sentinel 0. -/
theorem C5_payback_characterization (cac rev arpu margin ap freq : ℚ) :
    (0 < rev → payback_period_tab2 cac rev = cac / rev) ∧
    (rev = 0 → payback_period_tab2 cac rev = 0) ∧
    (0 < arpu * margin → payback_period_app cac arpu margin = cac / (arpu * margin)) ∧
    (arpu * margin = 0 → payback_period_app cac arpu margin = 0) ∧
    (0 < ap * freq →
      payback_display_proj cac ap freq = Display.num (cac / (ap * freq / 12))) ∧
    (ap * freq = 0 → payback_display_proj cac ap freq = Display.text "N/A") := by
  refine ⟨?_, ?_, ?_, ?_, ?_, ?_⟩ <;> intro h <;>
    simp [payback_period_tab2, payback_period_app, payback_display_proj, h]

/-- Claim C5 witness: the tab-2 payback at cac = 200, monthly revenue 50
is 4 months. -/
theorem C5_payback_characterization_witness :
    (0:ℚ) < 50 ∧ payback_period_tab2 200 50 = 4 := by
  refine ⟨by norm_num, ?_⟩
  have h := (C5_payback_characterization 200 50 0 0 0 0).1 (by norm_num)
  rw [h]; norm_num

/-- Claim C6 counterexample: the claim says computeCac is non-increasing
in newCustomers including the guarded case newCustomers = 0, but with
spend = 100 the value at 0 customers is the sentinel 0 while at 1
customer it is 100, so antitonicity fails across the guard. -/
theorem C6_counterexample :
    cac_calc 100 0 = 0 ∧ cac_calc 100 1 = 100 ∧
    ¬ cac_calc 100 1 ≤ cac_calc 100 0 := by
  refine ⟨?_, ?_, ?_⟩ <;> norm_num [cac_calc]

/-- Claim C6 (amended): for non-negative inputs, computeCac is monotone
non-decreasing in spend (for every customer count, including the guarded
0), and non-increasing in newCustomers on the positive counts; computeLtv
is monotone non-decreasing in each argument.  Antitonicity in
newCustomers does not extend across the guarded value 0. -/
theorem C6_monotonicity (s1 s2 : ℚ) (n n1 n2 : ℕ) (a1 a2 f1 f2 l1 l2 : ℚ)
    (hs1 : 0 ≤ s1) (hs : s1 ≤ s2) (hn1 : 0 < n1) (hn : n1 ≤ n2)
    (ha1 : 0 ≤ a1) (ha : a1 ≤ a2) (hf1 : 0 ≤ f1) (hf : f1 ≤ f2)
    (hl1 : 0 ≤ l1) (hl : l1 ≤ l2) :
    cac_calc s1 n ≤ cac_calc s2 n ∧
    cac_calc s1 n2 ≤ cac_calc s1 n1 ∧
    ltv_calc a1 f1 l1 ≤ ltv_calc a2 f2 l2 := by
  have ha2 : 0 ≤ a2 := le_trans ha1 ha
  have hf2 : 0 ≤ f2 := le_trans hf1 hf
  refine ⟨?_, ?_, ?_⟩
  · rcases Nat.eq_zero_or_pos n with h0 | hpos
    · simp [cac_calc, h0]
    · have hnq : (0:ℚ) < n := by exact_mod_cast hpos
      simp only [cac_calc, if_pos hpos]
      exact div_le_div_of_nonneg_right hs hnq.le
  · have hn2 : 0 < n2 := lt_of_lt_of_le hn1 hn
    have h1q : (0:ℚ) < n1 := by exact_mod_cast hn1
    have hnq : (n1 : ℚ) ≤ n2 := by exact_mod_cast hn
    simp only [cac_calc, if_pos hn1, if_pos hn2]
    exact div_le_div_of_nonneg_left hs1 h1q hnq
  · exact mul_le_mul (mul_le_mul ha hf hf1 ha2) hl hl1 (mul_nonneg ha2 hf2)

/-- Claim C6 witness: the monotonicity statement at spend 100 ≤ 200,
customer counts 5 ≤ 10, and LTV inputs (50,2,3) ≤ (60,4,5). -/
theorem C6_monotonicity_witness :
    cac_calc 100 5 ≤ cac_calc 200 5 ∧
    cac_calc 100 10 ≤ cac_calc 100 5 ∧
    ltv_calc 50 2 3 ≤ ltv_calc 60 4 5 :=
  C6_monotonicity 100 200 5 5 10 50 60 2 4 3 5
    (by norm_num) (by norm_num) (by norm_num) (by norm_num) (by norm_num)
    (by norm_num) (by norm_num) (by norm_num) (by norm_num) (by norm_num)

/-- Claim C7: `calculate_ltv` in `app.py` returns
arpu × (1/churn) × grossMargin when the monthly churn is positive and 0
when the churn is exactly 0, as an explicit branch rather than an
error. -/
theorem C7_ltv_from_arpu (arpu churn margin : ℚ)
    (ha : 0 ≤ arpu) (hc0 : 0 ≤ churn) (hc1 : churn ≤ 1)
    (hm0 : 0 ≤ margin) (hm1 : margin ≤ 1) :
    (0 < churn → calculate_ltv arpu churn margin = arpu * (1 / churn) * margin) ∧
    (churn = 0 → calculate_ltv arpu churn margin = 0) := by
  constructor
  · intro h; simp [calculate_ltv, ne_of_gt h]
  · intro h; simp [calculate_ltv, h]

/-- Claim C7 witness: at arpu = 100, churn = 1/20, margin = 7/10 the LTV
is 1400, and at churn = 0 it is 0. -/
theorem C7_ltv_from_arpu_witness :
    calculate_ltv 100 (1 / 20) (7 / 10) = 1400 ∧ calculate_ltv 100 0 (7 / 10) = 0 := by
  constructor
  · have h := (C7_ltv_from_arpu 100 (1 / 20) (7 / 10) (by norm_num) (by norm_num)
      (by norm_num) (by norm_num) (by norm_num)).1 (by norm_num)
    rw [h]; norm_num
  · exact (C7_ltv_from_arpu 100 0 (7 / 10) (by norm_num) (by norm_num)
      (by norm_num) (by norm_num) (by norm_num)).2 rfl

/-- Claim C8: the tab-5 scenario computation scales the baseline LTV by
(1 + deltaLtvPct/100) and the baseline CAC by (1 + deltaCacPct/100), and
in particular maps baseline (300, 20) with deltas (+10%, −10%) to
(330, 18). -/
theorem C8_apply_scenario (b : Baseline) (d : ScenarioDeltas) :
    (applyScenario b d).ltv = b.ltv * (1 + d.ltvPct / 100) ∧
    (applyScenario b d).cac = b.cac * (1 + d.cacPct / 100) ∧
    applyScenario ⟨300, 20⟩ ⟨10, -10⟩ = ⟨330, 18⟩ := by
  refine ⟨rfl, rfl, ?_⟩
  simp only [applyScenario, Baseline.mk.injEq]
  norm_num

/-- Claim C9: the engine functions are deterministic: one pass of the
composite `engine_run` on equal input records yields equal output
records — the embedding of each function is a pure mapping with no
hidden state. -/
theorem C9_engine_deterministic (i j : EngineInputs) (h : i = j) :
    engine_run i = engine_run j := by rw [h]

/-- Claim C9 witness: determinism at a concrete input record. -/
theorem C9_engine_deterministic_witness :
    engine_run ⟨50, 2, 3, 5000, 50, 300, 20, ChurnMethod.lostCustomers,
      1000, 50, 1 / 20, 100, 1 / 20, 7 / 10⟩
      = engine_run ⟨50, 2, 3, 5000, 50, 300, 20, ChurnMethod.lostCustomers,
        1000, 50, 1 / 20, 100, 1 / 20, 7 / 10⟩ :=
  C9_engine_deterministic _ _ rfl

/-- Claim C10: applying the same percentage delta p to both components
of the baseline leaves the LTV/CAC ratio unchanged whenever the baseline
CAC is positive and p > −100. -/
theorem C10_uniform_delta (b : Baseline) (p : ℚ)
    (hc : 0 < b.cac) (hp : -100 < p) :
    (applyScenario b ⟨p, p⟩).ltv / (applyScenario b ⟨p, p⟩).cac = b.ltv / b.cac := by
  have h1 : (0:ℚ) < 1 + p / 100 := by linarith
  have h2 : b.cac ≠ 0 := ne_of_gt hc
  have h3 : (100:ℚ) + p ≠ 0 := ne_of_gt (by linarith)
  simp only [applyScenario]
  field_simp
  ring

/-- Claim C10 witness: a uniform +10% delta on baseline (300, 20) keeps
the ratio at 300/20 = 15. -/
theorem C10_uniform_delta_witness :
    (0:ℚ) < 20 ∧ (-100:ℚ) < 10 ∧
    (applyScenario ⟨300, 20⟩ ⟨10, 10⟩).ltv / (applyScenario ⟨300, 20⟩ ⟨10, 10⟩).cac
      = 300 / 20 := by
  refine ⟨by norm_num, by norm_num, ?_⟩
  exact C10_uniform_delta ⟨300, 20⟩ 10 (by norm_num) (by norm_num)

end LtvCalc
